import Mathlib

/-!
Shallow embedding of `cbpro/public_client.py` (PublicClient).

The generator `_send_paginated_message` is modelled as a function from a
finite script of simulated HTTP page responses to the observable trace of
the iteration: the items yielded, and whether the loop broke normally,
raised a Python exception, or would have issued a further request beyond
the script. Cursor values are integers (the code parses the `Cb-After`
header with `int(...)` and does integer arithmetic on it); the `after` and
`limit` entries of the params dict are `Option Int` (`none` models an
absent key), and the `before` entry is an `Option String`.
-/

/-- Python exceptions raised by the embedded code.  `valueErrorGranularity`
and `valueErrorIntParse` carry the data the corresponding message strings
are formatted from. -/
inductive PyError : Type
  | typeError
  | valueErrorBefore
  | valueErrorGranularity (g : Int) (accepted : List Int)
  | valueErrorIntParse (s : String)
  deriving Repr, DecidableEq

/-- Python truthiness of an optional integer: `None` and `0` are falsy. -/
def pyTruthy : Option Int → Bool
  | none => false
  | some v => v != 0

/-- Python truthiness of an optional string: `None` and `""` are falsy. -/
def strTruthy : Option String → Bool
  | none => false
  | some s => s != ""

/-- Decimal digit value of a character, `none` for a non-digit. -/
def digitVal (c : Char) : Option Nat :=
  if 48 ≤ c.toNat ∧ c.toNat ≤ 57 then some (c.toNat - 48) else none

/-- Parse a nonempty run of decimal digits (accumulator form). -/
def parseDecimalAux : List Char → Nat → Option Nat
  | [], acc => some acc
  | c :: cs, acc =>
    match digitVal c with
    | none => none
    | some d => parseDecimalAux cs (acc * 10 + d)

/-- Models Python `int(s)` on the strings relevant here: an optional minus
sign followed by decimal digits; anything else raises `ValueError`
(modelled as `none`). -/
def pyInt (s : String) : Option Int :=
  match s.data with
  | [] => none
  | '-' :: cs => if cs = [] then none else (parseDecimalAux cs 0).map (fun n => -(n : Int))
  | cs => (parseDecimalAux cs 0).map (fun n => (n : Int))

/-- The params dict carried and mutated by `_send_paginated_message`
(`before`, `after`, `limit` keys; `none` = key absent). -/
structure PaginationParams where
  before : Option String := none
  after : Option Int := none
  limit : Option Int := none
  deriving Repr, DecidableEq

/-- One simulated HTTP response of the paginated endpoint: the JSON list of
items and the optional `Cb-After` header value. -/
structure PageResponse (α : Type) where
  items : List α
  cbAfter : Option String := none
  deriving Repr, DecidableEq

/-- Line 320: `next_after = int(response.headers['Cb-After']) if
response.headers.get('Cb-After') else None`.  A missing or empty header
gives `none`; a nonempty header is parsed with `int`, which can raise. -/
def nextAfterOf (header : Option String) : Except PyError (Option Int) :=
  match header with
  | none => Except.ok none
  | some s =>
    if s = "" then Except.ok none
    else
      match pyInt s with
      | some n => Except.ok (some n)
      | none => Except.error (PyError.valueErrorIntParse s)

/-- Lines 321-326: the end-of-page decision.  `Except.ok none` models
`break`; `Except.ok (some p)` models continuing the loop with updated
params `p`.  Mirrors Python short-circuiting: `not next_after` (None or 0)
breaks before the stop-equality subtraction is evaluated, and that
subtraction raises `TypeError` when the `limit` key is absent. -/
def continueDecision (stop_pagination : Int) (params : PaginationParams)
    (next_after : Option Int) : Except PyError (Option PaginationParams) :=
  match next_after with
  | none => Except.ok none
  | some n =>
    if n = 0 then Except.ok none
    else
      match params.limit with
      | none => Except.error PyError.typeError
      | some L =>
        if stop_pagination = params.after.getD 0 - L then Except.ok none
        else if stop_pagination > n - L then
          Except.ok (some { params with limit := some (n - stop_pagination), after := some n })
        else
          Except.ok (some { params with after := some n })

/-- Observable trace of running the `while True` loop of
`_send_paginated_message` against a finite script of page responses:
`done` = the loop broke after yielding `items`; `error` = a Python
exception was raised after yielding `items`; `pending` = the script was
exhausted while the loop was about to issue a further request with params
`next`. -/
inductive RunOutcome (α : Type) : Type
  | done (items : List α)
  | error (items : List α) (e : PyError)
  | pending (items : List α) (next : PaginationParams)
  deriving Repr, DecidableEq

/-- Prefix earlier-yielded items onto a trace. -/
def RunOutcome.prepend {α : Type} (pre : List α) : RunOutcome α → RunOutcome α
  | done items => done (pre ++ items)
  | error items e => error (pre ++ items) e
  | pending items p => pending (pre ++ items) p

/-- Lines 311-326: each loop iteration consumes the next scripted response,
yields all of its items, computes `next_after` from the header, and then
either breaks, raises, or updates the params and loops. -/
def runPaginator {α : Type} (stop_pagination : Int) (params : PaginationParams) :
    List (PageResponse α) → RunOutcome α
  | [] => RunOutcome.pending [] params
  | page :: rest =>
    match nextAfterOf page.cbAfter with
    | Except.error e => RunOutcome.error page.items e
    | Except.ok next_after =>
      match continueDecision stop_pagination params next_after with
      | Except.error e => RunOutcome.error page.items e
      | Except.ok none => RunOutcome.done page.items
      | Except.ok (some params1) =>
        (runPaginator stop_pagination params1 rest).prepend page.items

/-- `_send_paginated_message` (lines 282-326): rejects a truthy `before`
param with `ValueError` before any request, otherwise runs the loop. -/
def sendPaginatedMessage {α : Type} (stop_pagination : Int) (params : PaginationParams)
    (pages : List (PageResponse α)) : Except PyError (RunOutcome α) :=
  if strTruthy params.before then Except.error PyError.valueErrorBefore
  else Except.ok (runPaginator stop_pagination params pages)

/-- Lines 148-154: the params dict built by `get_product_trades`: each of
`before`, `limit`, `after` is included only when truthy. -/
def tradeParams (after : Option Int) (before : Option String) (limit : Option Int) :
    PaginationParams :=
  { before := if strTruthy before then before else none,
    limit := if pyTruthy limit then limit else none,
    after := if pyTruthy after then after else none }

/-- `get_product_trades` (lines 119-157): builds the params dict and
delegates to `_send_paginated_message` with the given `stop_pagination`. -/
def get_product_trades {α : Type} (after : Option Int) (before : Option String)
    (stop_pagination : Int) (limit : Option Int) (pages : List (PageResponse α)) :
    Except PyError (RunOutcome α) :=
  sendPaginatedMessage stop_pagination (tradeParams after before limit) pages

/-- Line 202: the accepted granularity values. -/
def acceptedGrans : List Int := [60, 300, 900, 3600, 21600, 86400]

/-- Query params built by `get_product_historic_rates`; the source's `end`
key is named `end_` here because `end` is a Lean keyword. -/
structure CandleParams where
  start : Option String := none
  end_ : Option String := none
  granularity : Option Int := none
  deriving Repr, DecidableEq

/-- `get_product_historic_rates` (lines 159-210): builds the request
(endpoint path and params), validating a supplied granularity against
`acceptedGrans` and raising `ValueError` naming the rejected value and the
accepted set otherwise. -/
def get_product_historic_rates (product_id : String) (start end_ : Option String)
    (granularity : Option Int) : Except PyError (String × CandleParams) :=
  let params : CandleParams := { start := start, end_ := end_ }
  match granularity with
  | none => Except.ok ("/products/" ++ product_id ++ "/candles", params)
  | some g =>
    if g ∈ acceptedGrans then
      Except.ok ("/products/" ++ product_id ++ "/candles",
        { params with granularity := some g })
    else
      Except.error (PyError.valueErrorGranularity g acceptedGrans)

/-- The client object: `__init__` (lines 23-32) stores only the stripped
URL (plus auth/session); note that its `timeout` argument is accepted but
never stored. -/
structure PublicClient where
  url : String
  deriving Repr, DecidableEq

/-- Embeds `__init__(api_url, timeout)`: strips trailing slashes from the
URL; the `timeout` argument is discarded, exactly as in the source. -/
def PublicClient.init (api_url : String) (timeout : Nat) : PublicClient :=
  { url := api_url.dropRightWhile (fun c => c = '/') }

/-- An HTTP request as issued by the client, with the timeout actually
passed to the session. -/
structure HttpRequest where
  method : String
  url : String
  timeout : Nat
  deriving Repr, DecidableEq

/-- `_send_message` (lines 264-280): the request it issues; the timeout is
the literal `30` (line 279), not a stored configuration value. -/
def sendMessageRequest (c : PublicClient) (method endpoint : String) : HttpRequest :=
  { method := method, url := c.url ++ endpoint, timeout := 30 }

/-- The GET issued by each iteration of `_send_paginated_message`
(line 312): also a literal `timeout=30`. -/
def paginatedFetchRequest (c : PublicClient) (endpoint : String) : HttpRequest :=
  { method := "get", url := c.url ++ endpoint, timeout := 30 }

/-- One full pagination step on the scripted response `page`: parse the
header, then decide (`Except.ok none` = break, `Except.ok (some p)` =
continue with params `p`). -/
def advance {α : Type} (stop_pagination : Int) (params : PaginationParams)
    (page : PageResponse α) : Except PyError (Option PaginationParams) :=
  match nextAfterOf page.cbAfter with
  | Except.error e => Except.error e
  | Except.ok next_after => continueDecision stop_pagination params next_after

/-- A script of pages the paginator fetches in full: every non-final page's
decision continues with some updated params, and the final page's
`Cb-After` header is absent. -/
inductive ConsumesAll {α : Type} (stop_pagination : Int) :
    PaginationParams → List (PageResponse α) → Prop
  | last (params : PaginationParams) (page : PageResponse α)
      (h : page.cbAfter = none) : ConsumesAll stop_pagination params [page]
  | step (params params1 : PaginationParams) (page : PageResponse α)
      (rest : List (PageResponse α))
      (h : advance stop_pagination params page = Except.ok (some params1))
      (ht : ConsumesAll stop_pagination params1 rest) :
      ConsumesAll stop_pagination params (page :: rest)

example : pyInt "500" = some 500 := rfl

example : pyInt "0" = some 0 := rfl

example : pyInt "-42" = some (-42) := rfl

example : pyInt "" = none := rfl

example : pyInt "12a" = none := rfl

/-- C1: in a pagination step with a present integer limit `L`, current
params `params`, and parsed cursor `next_after = N` (truthy), if the stop
equality of step 3 did not fire and `stop_pagination > N - L`, then the
following request is issued with `limit = N - stop_pagination` (and
`after = N`), computed before that request. -/
theorem c1_shrink_limit {α : Type} (stop_pagination : Int) (params : PaginationParams)
    (L N : Int) (page : PageResponse α) (rest : List (PageResponse α))
    (hhdr : nextAfterOf page.cbAfter = Except.ok (some N))
    (hL : params.limit = some L) (hN : N ≠ 0)
    (hstop : stop_pagination ≠ params.after.getD 0 - L)
    (hshrink : stop_pagination > N - L) :
    runPaginator stop_pagination params (page :: rest) =
      (runPaginator stop_pagination
        { params with limit := some (N - stop_pagination), after := some N }
        rest).prepend page.items := by
  simp [runPaginator, hhdr, continueDecision, hL, hN, hstop, hshrink]

theorem c1_shrink_limit_witness :
    runPaginator 450 { after := some 600, limit := some 100 }
        [({ items := [1, 2], cbAfter := some "500" } : PageResponse Nat)] =
      (runPaginator 450
        { after := some 500, limit := some 50, before := none }
        ([] : List (PageResponse Nat))).prepend [1, 2] := by
  exact c1_shrink_limit 450 { after := some 600, limit := some 100 } 100 500
    { items := [1, 2], cbAfter := some "500" } [] rfl rfl (by decide) (by decide) (by decide)

/-- Helper: when the limit key holds `L` and the current `after` (default
0) equals `stop_pagination + L`, the end-of-page decision breaks the loop,
whatever well-formed cursor the response carried. -/
theorem runPaginator_stop_eq {α : Type} (stop_pagination : Int) (params : PaginationParams)
    (L : Int) (v : Option Int) (page : PageResponse α) (rest : List (PageResponse α))
    (hL : params.limit = some L)
    (heq : params.after.getD 0 = stop_pagination + L)
    (hhdr : nextAfterOf page.cbAfter = Except.ok v) :
    runPaginator stop_pagination params (page :: rest) = RunOutcome.done page.items := by
  cases v with
  | none => simp [runPaginator, hhdr, continueDecision]
  | some n =>
    by_cases hn : n = 0
    · simp [runPaginator, hhdr, continueDecision, hn]
    · have hstop : stop_pagination = params.after.getD 0 - L := by omega
      simp [runPaginator, hhdr, continueDecision, hn, hL, hstop]

/-- C2: in a pagination step with a present integer limit `L`, if the
current `after` equals `stop_pagination + L` (equivalently
`stop_pagination = after - L`), the loop breaks after yielding that page's
items, whatever the (well-formed) cursor header of the response: no
further request is issued. -/
theorem c2_stop_equality {α : Type} (stop_pagination : Int) (params : PaginationParams)
    (L : Int) (v : Option Int) (page : PageResponse α) (rest : List (PageResponse α))
    (hL : params.limit = some L)
    (heq : params.after.getD 0 = stop_pagination + L)
    (hhdr : nextAfterOf page.cbAfter = Except.ok v) :
    runPaginator stop_pagination params (page :: rest) = RunOutcome.done page.items :=
  runPaginator_stop_eq stop_pagination params L v page rest hL heq hhdr

theorem c2_stop_equality_witness :
    runPaginator 400 { after := some 500, limit := some 100 }
        [({ items := [7], cbAfter := some "450" } : PageResponse Nat)] =
      RunOutcome.done [7] := by
  exact c2_stop_equality 400 { after := some 500, limit := some 100 } 100 (some 450)
    { items := [7], cbAfter := some "450" } [] rfl rfl rfl

/-- C4: if the `Cb-After` header is missing or empty, `next_after` is
absent and the loop breaks after yielding that page's items: no further
request is issued. -/
theorem c4_absent_header {α : Type} (stop_pagination : Int) (params : PaginationParams)
    (page : PageResponse α) (rest : List (PageResponse α))
    (h : page.cbAfter = none ∨ page.cbAfter = some "") :
    nextAfterOf page.cbAfter = Except.ok none ∧
      runPaginator stop_pagination params (page :: rest) = RunOutcome.done page.items := by
  rcases h with h | h <;> simp [runPaginator, nextAfterOf, continueDecision, h]

theorem c4_absent_header_witness :
    nextAfterOf (PageResponse.cbAfter ({ items := [5], cbAfter := none } : PageResponse Nat)) =
        Except.ok none ∧
      runPaginator 0 { limit := some 100 }
          [({ items := [5], cbAfter := none } : PageResponse Nat)] =
        RunOutcome.done [5] := by
  exact c4_absent_header 0 { limit := some 100 } { items := [5], cbAfter := none } []
    (Or.inl rfl)

/-- C9: after a limit-shrinking step the params are `after = N`,
`limit = N - stop_pagination`; on the following iteration the stop
equality necessarily holds, so whatever the (well-formed) cursor header of
that response, the loop breaks after yielding its items: at most one
further request is issued after a shrink. -/
theorem c9_shrink_then_stop {α : Type} (stop_pagination N : Int) (params : PaginationParams)
    (v : Option Int) (page : PageResponse α) (rest : List (PageResponse α))
    (hafter : params.after = some N)
    (hlimit : params.limit = some (N - stop_pagination))
    (hhdr : nextAfterOf page.cbAfter = Except.ok v) :
    runPaginator stop_pagination params (page :: rest) = RunOutcome.done page.items := by
  apply runPaginator_stop_eq stop_pagination params (N - stop_pagination) v page rest hlimit
  · rw [hafter]
    simp only [Option.getD_some]
    omega
  · exact hhdr

/-- C10: a `Cb-After` header equal to the string `"0"` parses to the
integer `0`, the truthiness test treats it as no-more-pages, and the loop
breaks after yielding that page's items, exactly as if the header were
absent. -/
theorem c10_zero_header {α : Type} (stop_pagination : Int) (params : PaginationParams)
    (page : PageResponse α) (rest : List (PageResponse α))
    (h : page.cbAfter = some "0") :
    nextAfterOf page.cbAfter = Except.ok (some 0) ∧
      runPaginator stop_pagination params (page :: rest) = RunOutcome.done page.items ∧
      runPaginator stop_pagination params (page :: rest) =
        runPaginator stop_pagination params ({ page with cbAfter := none } :: rest) := by
  have hv : nextAfterOf (some "0") = Except.ok (some 0) := rfl
  have hnone : nextAfterOf none = Except.ok none := rfl
  refine ⟨h ▸ hv, ?_, ?_⟩
  · simp [runPaginator, h, hv, continueDecision]
  · simp [runPaginator, h, hv, hnone, continueDecision]

theorem c10_zero_header_witness :
    nextAfterOf (PageResponse.cbAfter ({ items := [1], cbAfter := some "0" } : PageResponse Nat)) =
        Except.ok (some 0) ∧
      runPaginator 3 { after := some 9, limit := some 2 }
          [({ items := [1], cbAfter := some "0" } : PageResponse Nat)] =
        RunOutcome.done [1] ∧
      runPaginator 3 { after := some 9, limit := some 2 }
          [({ items := [1], cbAfter := some "0" } : PageResponse Nat)] =
        runPaginator 3 { after := some 9, limit := some 2 }
          [({ items := [1], cbAfter := none } : PageResponse Nat)] := by
  exact c10_zero_header 3 { after := some 9, limit := some 2 }
    { items := [1], cbAfter := some "0" } [] rfl

theorem c9_shrink_then_stop_witness :
    runPaginator 450 { after := some 500, limit := some 50 }
        [({ items := [4], cbAfter := some "433" } : PageResponse Nat)] =
      RunOutcome.done [4] := by
  exact c9_shrink_then_stop 450 500 { after := some 500, limit := some 50 } (some 433)
    { items := [4], cbAfter := some "433" } [] rfl rfl rfl

/-- C3: against any script of pages the paginator fetches in full (every
non-final decision continues, final page's cursor header absent), the
trace it produces is exactly the concatenation of all page item lists, in
fetch order, ending in a normal break: no duplicates, no omissions, no
further request. -/
theorem c3_sequence_complete {α : Type} (stop_pagination : Int)
    (params : PaginationParams) (pages : List (PageResponse α))
    (h : ConsumesAll stop_pagination params pages) :
    runPaginator stop_pagination params pages =
      RunOutcome.done (pages.map PageResponse.items).flatten := by
  induction h with
  | last params page hdr =>
    simp [runPaginator, hdr, nextAfterOf, continueDecision]
  | step params params1 page rest hadv ht ih =>
    rcases hv : nextAfterOf page.cbAfter with e | v
    · rw [advance, hv] at hadv
      exact absurd hadv (by simp)
    · rw [advance, hv] at hadv
      have hadv1 : continueDecision stop_pagination params v =
          Except.ok (some params1) := hadv
      simp [runPaginator, hv, hadv1, ih, RunOutcome.prepend]

theorem c3_sequence_complete_witness :
    runPaginator 0 { after := none, limit := some 100 }
        [({ items := [1, 2], cbAfter := some "50" } : PageResponse Nat),
         ({ items := [3], cbAfter := none } : PageResponse Nat)] =
      RunOutcome.done [1, 2, 3] := by
  have h := c3_sequence_complete 0 { after := none, limit := some 100 }
    [({ items := [1, 2], cbAfter := some "50" } : PageResponse Nat),
     ({ items := [3], cbAfter := none } : PageResponse Nat)]
    (ConsumesAll.step _ { before := none, after := some 50, limit := some 50 } _ _ rfl
      (ConsumesAll.last _ _ rfl))
  simpa using h

/-- C5: a truthy (non-empty) `before` argument to `get_product_trades`
makes the paginated call fail with the `before`-rejection `ValueError`, no
matter what the server would have answered: no request is issued and no
item is produced. -/
theorem c5_before_rejected {α : Type} (after : Option Int) (before : Option String)
    (stop_pagination : Int) (limit : Option Int) (pages : List (PageResponse α))
    (h : strTruthy before = true) :
    get_product_trades after before stop_pagination limit pages =
      Except.error PyError.valueErrorBefore := by
  simp [get_product_trades, sendPaginatedMessage, tradeParams, h]

theorem c5_before_rejected_witness :
    get_product_trades (α := Nat) none (some "7381") 0 (some 100)
        [({ items := [1], cbAfter := some "5" } : PageResponse Nat)] =
      Except.error PyError.valueErrorBefore := by
  exact c5_before_rejected none (some "7381") 0 (some 100)
    [{ items := [1], cbAfter := some "5" }] rfl

/-- C6: with a supplied granularity, `get_product_historic_rates` builds
the request without error exactly for the six accepted values, attaching
the granularity to the params; otherwise it fails with a `ValueError`
carrying the rejected value and the accepted set, no request built. -/
theorem c6_granularity (product_id : String) (start end_ : Option String) (g : Int) :
    (g ∈ acceptedGrans →
      get_product_historic_rates product_id start end_ (some g) =
        Except.ok ("/products/" ++ product_id ++ "/candles",
          { start := start, end_ := end_, granularity := some g })) ∧
    (g ∉ acceptedGrans →
      get_product_historic_rates product_id start end_ (some g) =
        Except.error (PyError.valueErrorGranularity g acceptedGrans)) := by
  constructor <;> intro h <;> simp [get_product_historic_rates, h]

theorem c6_granularity_witness :
    get_product_historic_rates "BTC-USD" none none (some 60) =
        Except.ok ("/products/" ++ "BTC-USD" ++ "/candles",
          { start := none, end_ := none, granularity := some 60 }) ∧
      get_product_historic_rates "BTC-USD" none none (some 61) =
        Except.error (PyError.valueErrorGranularity 61 acceptedGrans) :=
  ⟨(c6_granularity "BTC-USD" none none 60).1 (by decide),
   (c6_granularity "BTC-USD" none none 61).2 (by decide)⟩

/-- C7 counterexample: a client constructed with timeout 60 still issues
its requests with timeout 30 — the constructor's `timeout` argument is
discarded, so the claim that every request uses the constructed value is
false at `t = 60`. -/
theorem c7_timeout_counterexample :
    (sendMessageRequest (PublicClient.init "https://api.pro.coinbase.com" 60)
        "get" "/time").timeout ≠ 60 := by
  decide

/-- C7 amended: the request timeout is the hardcoded constant 30 for every
request (`_send_message` and the paginated GET alike), whatever `timeout`
value the client was constructed with. -/
theorem c7_timeout_amended (api_url : String) (t : Nat) (method endpoint pagEndpoint : String) :
    (sendMessageRequest (PublicClient.init api_url t) method endpoint).timeout = 30 ∧
      (paginatedFetchRequest (PublicClient.init api_url t) pagEndpoint).timeout = 30 :=
  ⟨rfl, rfl⟩

/-- C8: calling `get_product_trades` with a falsy `limit` (absent or 0)
omits the `limit` key from the params, and on the first response whose
`Cb-After` header carries a non-empty, non-zero cursor the stop check
subtracts the missing limit and raises `TypeError` after yielding that
page's items, instead of continuing or terminating normally. -/
theorem c8_missing_limit_typeerror {α : Type} (after : Option Int) (before : Option String)
    (stop_pagination : Int) (limit : Option Int) (page : PageResponse α)
    (rest : List (PageResponse α)) (N : Int)
    (hbefore : strTruthy before = false)
    (hlimit : pyTruthy limit = false)
    (hN : N ≠ 0)
    (hhdr : nextAfterOf page.cbAfter = Except.ok (some N)) :
    (tradeParams after before limit).limit = none ∧
      get_product_trades after before stop_pagination limit (page :: rest) =
        Except.ok (RunOutcome.error page.items PyError.typeError) := by
  have hb : (tradeParams after before limit).before = none := by
    simp [tradeParams, hbefore]
  have hl : (tradeParams after before limit).limit = none := by
    simp [tradeParams, hlimit]
  refine ⟨hl, ?_⟩
  simp [get_product_trades, sendPaginatedMessage, hb, hl, runPaginator, hhdr,
    continueDecision, hN, strTruthy]

theorem c8_missing_limit_typeerror_witness :
    (tradeParams none none (some 0)).limit = none ∧
      get_product_trades none none 0 (some 0)
          [({ items := [9], cbAfter := some "17" } : PageResponse Nat)] =
        Except.ok (RunOutcome.error [9] PyError.typeError) := by
  exact c8_missing_limit_typeerror none none 0 (some 0)
    { items := [9], cbAfter := some "17" } [] 17 rfl rfl (by decide) rfl
